import Mathlib

/-!
Shallow embedding of `server/app.py` from the `flask-spa-cross-origin`
application: a minimal session-authenticated JSON API with a fixed
in-memory user store and four endpoints (`/api/login`, `/api/getsession`,
`/api/data`, `/api/logout`).

Modelling choices, all drawn from the source:
* The user store is the module-level `users` list; handlers receive it as
  part of an explicit `ServerState` so that (non-)mutation is visible.
* The session is the signed cookie slot flask-login writes: `login_user`
  stores the string form of the user id (`UserMixin.get_id` returns
  `str(self.id)`), `logout_user` clears it, and `current_user` is resolved
  by feeding the stored string to the registered `user_loader`.
* `@login_required` is embedded as a higher-order wrapper over handlers;
  flask-login aborts with HTTP 401 when no `login_view` is configured.
* `request.json` (Flask) aborts with HTTP 400 when the content type is
  JSON but the body fails to parse — stable across Flask versions; when
  the body parses to a non-object value (array, string, number, null),
  `data.get(...)` raises `AttributeError`, which surfaces as an HTTP 500
  server error in every version. For a missing body or a non-JSON
  content type the behavior depends on the Flask version, which the
  repository does not pin: Flask ≤ 2.0 has `request.json` return `None`
  (so `data.get` raises `AttributeError`, HTTP 500), Flask 2.1 aborts
  with HTTP 400, and Flask ≥ 2.2 aborts with HTTP 415
  `UnsupportedMediaType`; this case is kept out of `ReqBody` and modelled
  separately, parameterized by the version.
* Python `int(...)` is the identity on ints and a decimal parse on
  strings; a failed parse raises `ValueError`, modelled as `none` (the
  application only ever feeds it `str` of a stored integer id).
-/

/-- A record of the in-memory `users` list: `{"id": ..., "username": ..., "password": ...}`. -/
structure UserRecord where
  id : Int
  username : String
  password : String
deriving Repr, DecidableEq

/-- The fixed store created at module load:
`users = [{"id": 1, "username": "test", "password": "test"}]`. -/
def usersInit : List UserRecord := [⟨1, "test", "test"⟩]

/-- A Python value reaching `int(...)` in `get_user`: stored ids are ints,
and flask-login hands `user_loader` the id as the string stored in the
session cookie. -/
inductive PyVal where
  | vint (n : Int)
  | vstr (s : String)
deriving Repr, DecidableEq

/-- Accumulate a run of decimal digits; `none` on any non-digit. -/
def dec_digits (cs : List Char) : Option Nat :=
  cs.foldl
    (fun acc c =>
      acc.bind fun a =>
        if c.isDigit then some (a * 10 + (c.toNat - Char.toNat '0')) else none)
    (some 0)

/-- Decimal parse of a string: an optional sign followed by at least one
digit, as Python `int(...)` accepts (whitespace/underscore tolerance of
CPython is irrelevant here: the app only parses `str` of stored ids). -/
def str_to_int (s : String) : Option Int :=
  match s.data with
  | [] => none
  | '-' :: cs =>
    if cs.isEmpty then none else (dec_digits cs).map fun n => -(n : Int)
  | '+' :: cs =>
    if cs.isEmpty then none else (dec_digits cs).map fun n => (n : Int)
  | cs => (dec_digits cs).map fun n => (n : Int)

/-- Python `int(x)`: identity on ints, decimal parse on strings. `none`
models the `ValueError` raised on a non-numeric string. -/
def int_coerce : PyVal → Option Int
  | PyVal.vint n => some n
  | PyVal.vstr s => str_to_int s

/-- Lookup `get_user(user_id)`: linear scan over `users` returning the first
record with `int(user["id"]) == int(user_id)`, else `None`. Stored ids
are integers, so `int(...)` on the stored side is the identity. -/
def get_user (us : List UserRecord) (user_id : PyVal) : Option UserRecord :=
  (int_coerce user_id).bind fun n => us.find? fun u => decide (u.id = n)

/-- The duck-typed `User(UserMixin)` model; only its `id` attribute is ever
assigned and read. -/
structure UserModel where
  id : Int
deriving Repr, DecidableEq

/-- Loader `user_loader(id)`: resolves the id string flask-login kept in the
session back to a user model via `get_user`, or `None`. -/
def user_loader (us : List UserRecord) (uid : String) : Option UserModel :=
  match get_user us (PyVal.vstr uid) with
  | some u => some ⟨u.id⟩
  | none => none

/-- Server-visible state: the user store plus the session cookie's
`_user_id` slot (`none` when no session is established). -/
structure ServerState where
  users : List UserRecord
  sess : Option String
deriving Repr, DecidableEq

/-- The state at process start: fixed store, no session. -/
def initState : ServerState := ⟨usersInit, none⟩

/-- Resolution of `current_user`: flask-login feeds the session's stored id
string to the registered `user_loader`. -/
def current_user (s : ServerState) : Option UserModel :=
  s.sess.bind (user_loader s.users)

/-- Flag `current_user.is_authenticated`: true iff the session cookie resolves
to a user model. -/
def is_authenticated (s : ServerState) : Bool :=
  (current_user s).isSome

/-- The body of a POST `/api/login` request, as `request.json` sees it:
an unparseable body under a JSON content type (`badJson`), a body that
parses as JSON without being an object (`jsonNonObject`), or a JSON
object. A missing body / non-JSON content type is handled differently by
different Flask versions and is modelled apart (`login_missing_body`). -/
inductive ReqBody where
  | badJson
  | jsonNonObject
  | jsonObject (fields : List (String × String))
deriving Repr, DecidableEq

/-- The observable responses of the four handlers. -/
inductive Resp where
  | loginResp (b : Bool)
  | dataResp (name : String)
  | logoutResp
  | unauthorized
  | badRequest
  | serverError
  | unsupportedMedia
deriving Repr, DecidableEq

/-- The HTTP status attached to each response shape. -/
def Resp.status : Resp → Nat
  | loginResp _ => 200
  | dataResp _ => 200
  | logoutResp => 200
  | unauthorized => 401
  | badRequest => 400
  | serverError => 500
  | unsupportedMedia => 415

/-- A response is a client error when its status is in the 4xx range. -/
def is_client_error (r : Resp) : Bool :=
  decide (400 ≤ r.status ∧ r.status < 500)

/-- Handler `login()`: reads `request.json`, scans `users` for the first record
whose username and password both equal the submitted values; on a match,
`login_user` stores `str(user.id)` in the session and the handler returns
`{"login": true}`; otherwise `{"login": false}` with the session
untouched. A missing key makes `data.get` return `None`, which never
equals a stored string. An unparseable body under a JSON content type is
rejected by `request.json` with HTTP 400 in every Flask version; a body
parsing to a non-object makes `data.get` raise `AttributeError`, an
HTTP 500, in every version. -/
def login (body : ReqBody) (s : ServerState) : Resp × ServerState :=
  match body with
  | ReqBody.badJson => (Resp.badRequest, s)
  | ReqBody.jsonNonObject => (Resp.serverError, s)
  | ReqBody.jsonObject fields =>
    let username := fields.lookup "username"
    let password := fields.lookup "password"
    match s.users.find? fun u =>
        decide (username = some u.username ∧ password = some u.password) with
    | some u => (Resp.loginResp true, ⟨s.users, some (toString u.id)⟩)
    | none => (Resp.loginResp false, s)

/-- The Flask versions that treat a missing body (or non-JSON content
type) differently; the repository pins no version. -/
inductive FlaskVer where
  | le20
  | eq21
  | ge22
deriving Repr, DecidableEq

/-- What POST `/api/login` answers when the body is missing or the
content type is not JSON, by Flask version: on ≤ 2.0 `request.json` is
`None` and `data.get` raises `AttributeError` (HTTP 500); 2.1 aborts
with HTTP 400; ≥ 2.2 aborts with HTTP 415 `UnsupportedMediaType`. -/
def missing_body_resp : FlaskVer → Resp
  | FlaskVer.le20 => Resp.serverError
  | FlaskVer.eq21 => Resp.badRequest
  | FlaskVer.ge22 => Resp.unsupportedMedia

/-- POST `/api/login` on a missing body / non-JSON content type: the
abort (or the exception inside the handler, on ≤ 2.0) happens before any
session write, so the state is unchanged in every version. -/
def login_missing_body (v : FlaskVer) (s : ServerState) : Resp × ServerState :=
  (missing_body_resp v, s)

/-- Decorator `@login_required`: flask-login short-circuits with HTTP 401 when
`current_user` is not authenticated, otherwise invokes the wrapped
handler. -/
def login_required (handler : ServerState → Resp × ServerState)
    (s : ServerState) : Resp × ServerState :=
  if is_authenticated s then handler s else (Resp.unauthorized, s)

/-- Body of `user_data()` behind the decorator: looks up
`get_user(current_user.id)` and returns `{"name": user["username"]}`. A
`None` from the lookup would make the subscription raise (HTTP 500);
likewise an anonymous `current_user` has no `id`. -/
def user_data_body (s : ServerState) : Resp × ServerState :=
  match current_user s with
  | none => (Resp.serverError, s)
  | some m =>
    match get_user s.users (PyVal.vint m.id) with
    | some u => (Resp.dataResp u.username, s)
    | none => (Resp.serverError, s)

/-- GET `/api/data`: `user_data` wrapped in `@login_required`. -/
def user_data : ServerState → Resp × ServerState :=
  login_required user_data_body

/-- Body of `logout()` behind the decorator: `logout_user()` clears the
session and the handler returns `{"logout": true}`. -/
def logout_body (s : ServerState) : Resp × ServerState :=
  (Resp.logoutResp, ⟨s.users, none⟩)

/-- GET `/api/logout`: `logout` wrapped in `@login_required`. -/
def logout : ServerState → Resp × ServerState :=
  login_required logout_body

/-- Handler `check_session()` for GET `/api/getsession`: `{"login": true}` iff
`current_user.is_authenticated`, never an error. -/
def check_session (s : ServerState) : Resp × ServerState :=
  (Resp.loginResp (is_authenticated s), s)

/-- One incoming HTTP request to any of the four endpoints. -/
inductive Request where
  | rlogin (b : ReqBody)
  | rdata
  | rlogout
  | rgetsession
deriving Repr, DecidableEq

/-- Dispatch a request to its handler. -/
def step (rq : Request) (s : ServerState) : Resp × ServerState :=
  match rq with
  | Request.rlogin b => login b s
  | Request.rdata => user_data s
  | Request.rlogout => logout s
  | Request.rgetsession => check_session s

/-- Run a sequence of requests, threading the server state. -/
def runSeq (rs : List Request) (s : ServerState) : ServerState :=
  match rs with
  | [] => s
  | r :: rest => runSeq rest (step r s).2

/-! ## Helper lemmas -/

/-- A linear scan returns the first element satisfying the predicate: if
everything before `a` fails the predicate and `a` satisfies it, the scan
stops at `a`. -/
theorem find?_append_of_forall_not {α : Type} (p : α → Bool) (l1 l2 : List α)
    (a : α) (h1 : ∀ x ∈ l1, p x = false) (ha : p a = true) :
    (l1 ++ a :: l2).find? p = some a := by
  induction l1 with
  | nil => simp [List.find?, ha]
  | cons x xs ih =>
    have hx : p x = false := h1 x (by simp)
    simp only [List.cons_append, List.find?, hx]
    exact ih fun y hy => h1 y (by simp [hy])

/-- Every handler hands back a state with the same user store. -/
theorem step_users (rq : Request) (s : ServerState) :
    ((step rq s).2).users = s.users := by
  cases rq with
  | rlogin b =>
    cases b with
    | badJson => rfl
    | jsonNonObject => rfl
    | jsonObject fields =>
      simp only [step, login]
      cases h : s.users.find? fun u =>
          decide (fields.lookup "username" = some u.username
            ∧ fields.lookup "password" = some u.password) with
      | none => simp [h]
      | some u => simp [h]
  | rdata =>
    simp only [step, user_data, login_required]
    split
    · simp only [user_data_body]
      split
      · rfl
      · split <;> rfl
    · rfl
  | rlogout =>
    simp only [step, logout, login_required]
    split <;> rfl
  | rgetsession => rfl

/-- Iterate GET `/api/data`, keeping only the state. -/
def iterData : Nat → ServerState → ServerState
  | 0, s => s
  | k + 1, s => iterData k (user_data s).2

/-! ## Claim theorems -/

/-- C1: for every user record in the fixed store, POST `/api/login` with
that record's username and password returns `{login: true}` and
establishes a session under which GET `/api/data` returns
`{name: username}` for the authenticated record. -/
theorem C1_login_then_data (r : UserRecord) (s0 : ServerState)
    (hr : r ∈ usersInit) (hs : s0.users = usersInit) :
    (login (ReqBody.jsonObject [("username", r.username), ("password", r.password)]) s0).1
      = Resp.loginResp true
    ∧ user_data
        (login (ReqBody.jsonObject [("username", r.username), ("password", r.password)]) s0).2
      = (Resp.dataResp r.username,
         (login (ReqBody.jsonObject [("username", r.username), ("password", r.password)]) s0).2) := by
  have hr1 : r = ⟨1, "test", "test"⟩ := by simpa [usersInit] using hr
  subst hr1
  obtain ⟨us, sess⟩ := s0
  simp only at hs
  subst hs
  exact ⟨rfl, rfl⟩

/-- Witness for C1 at the stored record and the startup state. -/
theorem C1_witness :
    (login (ReqBody.jsonObject [("username", "test"), ("password", "test")]) initState).1
      = Resp.loginResp true
    ∧ user_data
        (login (ReqBody.jsonObject [("username", "test"), ("password", "test")]) initState).2
      = (Resp.dataResp "test",
         (login (ReqBody.jsonObject [("username", "test"), ("password", "test")]) initState).2) :=
  C1_login_then_data ⟨1, "test", "test"⟩ initState (by decide) (by decide)

/-- C2: credential lookup scans the store in order and authenticates as
the first record whose username and password both match the submitted
pair; the session is bound to that earliest record's id. -/
theorem C2_first_match_bound (us1 us2 : List UserRecord) (r : UserRecord)
    (un pw : String) (s : ServerState)
    (hs : s.users = us1 ++ r :: us2)
    (hr : r.username = un ∧ r.password = pw)
    (hfirst : ∀ u ∈ us1, ¬(u.username = un ∧ u.password = pw)) :
    login (ReqBody.jsonObject [("username", un), ("password", pw)]) s
      = (Resp.loginResp true, ⟨s.users, some (toString r.id)⟩) := by
  have hlu : List.lookup "username" [("username", un), ("password", pw)] = some un := rfl
  have hlp : List.lookup "password" [("username", un), ("password", pw)] = some pw := rfl
  have hfind :
      (us1 ++ r :: us2).find?
        (fun u => decide (some un = some u.username ∧ some pw = some u.password))
        = some r := by
    apply find?_append_of_forall_not
    · intro x hx
      have hnx := hfirst x hx
      simp only [decide_eq_false_iff_not, Option.some.injEq]
      intro hcon
      exact hnx ⟨hcon.1.symm, hcon.2.symm⟩
    · simp [hr.1, hr.2]
  simp only [login, hlu, hlp, hs, hfind]

/-- Witness for C2: two records share the credentials; the earlier id (1)
is the one bound to the session, past a non-matching first record. -/
theorem C2_witness :
    login (ReqBody.jsonObject [("username", "a"), ("password", "b")])
        ⟨[⟨7, "x", "b"⟩, ⟨1, "a", "b"⟩, ⟨2, "a", "b"⟩], none⟩
      = (Resp.loginResp true,
         ⟨[⟨7, "x", "b"⟩, ⟨1, "a", "b"⟩, ⟨2, "a", "b"⟩], some "1"⟩) :=
  C2_first_match_bound [⟨7, "x", "b"⟩] [⟨2, "a", "b"⟩] ⟨1, "a", "b"⟩ "a" "b"
    ⟨[⟨7, "x", "b"⟩, ⟨1, "a", "b"⟩, ⟨2, "a", "b"⟩], none⟩ rfl (by decide) (by decide)

/-- C3: a credential pair matching no record yields `{login: false}` with
HTTP status 200, and the state (hence the session) is unchanged. -/
theorem C3_invalid_credentials (un pw : String) (s : ServerState)
    (h : ∀ u ∈ s.users, ¬(u.username = un ∧ u.password = pw)) :
    login (ReqBody.jsonObject [("username", un), ("password", pw)]) s
      = (Resp.loginResp false, s)
    ∧ (Resp.loginResp false).status = 200 := by
  have hlu : List.lookup "username" [("username", un), ("password", pw)] = some un := rfl
  have hlp : List.lookup "password" [("username", un), ("password", pw)] = some pw := rfl
  have hfind :
      s.users.find?
        (fun u => decide (some un = some u.username ∧ some pw = some u.password))
        = none := by
    rw [List.find?_eq_none]
    intro x hx
    simp only [decide_eq_true_eq, Option.some.injEq]
    intro hcon
    exact h x hx ⟨hcon.1.symm, hcon.2.symm⟩
  refine ⟨?_, rfl⟩
  simp only [login, hlu, hlp, hfind]

/-- Witness for C3 at a pair absent from the fixed store. -/
theorem C3_witness :
    login (ReqBody.jsonObject [("username", "nope"), ("password", "nope")]) initState
      = (Resp.loginResp false, initState)
    ∧ (Resp.loginResp false).status = 200 :=
  C3_invalid_credentials "nope" "nope" initState (by decide)

/-- C4: an unauthenticated request to a protected endpoint is rejected
with HTTP 401 and the wrapped handler is never invoked: the middleware's
result is the same for every handler, and the state is untouched. -/
theorem C4_unauth_short_circuit (handler : ServerState → Resp × ServerState)
    (s : ServerState) (h : is_authenticated s = false) :
    login_required handler s = (Resp.unauthorized, s)
    ∧ user_data s = (Resp.unauthorized, s)
    ∧ logout s = (Resp.unauthorized, s)
    ∧ Resp.status Resp.unauthorized = 401 := by
  simp [login_required, user_data, logout, h, Resp.status]

/-- Witness for C4 at the startup state (no session). -/
theorem C4_witness :
    login_required (fun st => (Resp.logoutResp, st)) initState
      = (Resp.unauthorized, initState)
    ∧ user_data initState = (Resp.unauthorized, initState)
    ∧ logout initState = (Resp.unauthorized, initState)
    ∧ Resp.status Resp.unauthorized = 401 :=
  C4_unauth_short_circuit (fun st => (Resp.logoutResp, st)) initState (by decide)

/-- C5: after an authenticated GET `/api/logout` (which returns
`{logout: true}` and clears the session), every later GET `/api/data`,
however many times it is retried, fails with HTTP 401. -/
theorem C5_logout_invalidates (s1 : ServerState) (h : is_authenticated s1 = true) :
    logout s1 = (Resp.logoutResp, ⟨s1.users, none⟩)
    ∧ ∀ k : Nat,
        user_data (iterData k ⟨s1.users, none⟩)
          = (Resp.unauthorized, ⟨s1.users, none⟩) := by
  have hud : user_data (⟨s1.users, none⟩ : ServerState)
      = (Resp.unauthorized, ⟨s1.users, none⟩) := by
    simp [user_data, login_required, is_authenticated, current_user]
  have hfix : ∀ k, iterData k (⟨s1.users, none⟩ : ServerState) = ⟨s1.users, none⟩ := by
    intro k
    induction k with
    | zero => rfl
    | succ m ih => simp [iterData, hud, ih]
  refine ⟨by simp [logout, login_required, h, logout_body], fun k => ?_⟩
  rw [hfix k, hud]

/-- Witness for C5 at an authenticated session over the fixed store,
checking the third retry of GET `/api/data`. -/
theorem C5_witness :
    logout ⟨usersInit, some "1"⟩ = (Resp.logoutResp, ⟨usersInit, none⟩)
    ∧ user_data (iterData 3 ⟨usersInit, none⟩)
      = (Resp.unauthorized, ⟨usersInit, none⟩) :=
  ⟨(C5_logout_invalidates ⟨usersInit, some "1"⟩ (by decide)).1,
   (C5_logout_invalidates ⟨usersInit, some "1"⟩ (by decide)).2 3⟩

/-- C6: GET `/api/getsession` answers `{login: true}` exactly when the
session resolves to an authenticated user, `{login: false}` otherwise,
always with HTTP 200 and without touching the state. -/
theorem C6_getsession_reflects (s : ServerState) :
    check_session s = (Resp.loginResp (is_authenticated s), s)
    ∧ ((check_session s).1 = Resp.loginResp true ↔ is_authenticated s = true)
    ∧ ((check_session s).1 = Resp.loginResp false ↔ is_authenticated s = false)
    ∧ (check_session s).1.status = 200 := by
  refine ⟨rfl, ?_, ?_, rfl⟩ <;> simp [check_session]

/-- C7: user lookup by id compares the coerced query against the stored
integer ids: it returns the first record whose id equals the coerced
query, and `None` exactly when no record's id equals it. -/
theorem C7_get_user_int_eq (us : List UserRecord) (q : PyVal) (n : Int)
    (h : int_coerce q = some n) :
    get_user us q = us.find? (fun u => decide (u.id = n))
    ∧ (∀ r, get_user us q = some r → r ∈ us ∧ r.id = n)
    ∧ (get_user us q = none ↔ ∀ u ∈ us, u.id ≠ n) := by
  have hg : get_user us q = us.find? fun u => decide (u.id = n) := by
    simp [get_user, h]
  refine ⟨hg, ?_, ?_⟩
  · intro r hr
    rw [hg] at hr
    exact ⟨List.mem_of_find?_eq_some hr, by simpa using List.find?_some hr⟩
  · rw [hg, List.find?_eq_none]
    simp

/-- Witness for C7: the stringified id "1" coerces and finds the record
with integer id 1 in the fixed store. -/
theorem C7_witness :
    get_user usersInit (PyVal.vstr "1")
      = usersInit.find? fun u => decide (u.id = 1) :=
  (C7_get_user_int_eq usersInit (PyVal.vstr "1") 1 (by decide)).1

/-- C8 counterexample: a body that is valid JSON but not a JSON object
(so the username/password fields cannot be read) is answered with
HTTP 500 — a server error, not a 4xx client error as claimed. -/
theorem C8_counterexample :
    (login ReqBody.jsonNonObject initState).1.status = 500
    ∧ is_client_error (login ReqBody.jsonNonObject initState).1 = false := by
  decide

/-- C8 (amended): an unparseable body under a JSON content type is
rejected with a 4xx client error (HTTP 400) in every Flask version; a
body that parses as valid JSON without being a JSON object makes
`data.get` raise `AttributeError`, an HTTP 500 server error; and a
missing body (or non-JSON content type) gets a version-dependent status
— HTTP 500 on Flask ≤ 2.0, 400 on 2.1, 415 on ≥ 2.2 — a server error on
≤ 2.0, a client error on the others. The state is unchanged in every
case. -/
theorem C8_amended_body_errors (s : ServerState) :
    (login ReqBody.badJson s = (Resp.badRequest, s)
      ∧ is_client_error Resp.badRequest = true)
    ∧ (login ReqBody.jsonNonObject s = (Resp.serverError, s)
      ∧ Resp.status Resp.serverError = 500
      ∧ is_client_error Resp.serverError = false)
    ∧ (∀ v : FlaskVer, login_missing_body v s = (missing_body_resp v, s))
    ∧ is_client_error (missing_body_resp FlaskVer.le20) = false
    ∧ Resp.status (missing_body_resp FlaskVer.le20) = 500
    ∧ is_client_error (missing_body_resp FlaskVer.eq21) = true
    ∧ is_client_error (missing_body_resp FlaskVer.ge22) = true
    ∧ Resp.status (missing_body_resp FlaskVer.ge22) = 415 :=
  ⟨⟨rfl, rfl⟩, ⟨rfl, rfl, rfl⟩, fun _ => rfl, rfl, rfl, rfl, rfl, rfl⟩

/-- C9: whenever the middleware authenticates a request, the handler's
`get_user(current_user.id)` lookup succeeds (the `None` branch is
unreachable) and GET `/api/data` returns the found record's username. -/
theorem C9_data_lookup_total (s : ServerState) (m : UserModel)
    (h : current_user s = some m) :
    (get_user s.users (PyVal.vint m.id)).isSome = true
    ∧ user_data s
      = (Resp.dataResp
          (((get_user s.users (PyVal.vint m.id)).map UserRecord.username).getD ""),
         s) := by
  have hsome : (get_user s.users (PyVal.vint m.id)).isSome = true := by
    cases hsess : s.sess with
    | none =>
      rw [current_user, hsess] at h
      simp at h
    | some uid =>
      rw [current_user, hsess] at h
      simp only [Option.some_bind] at h
      unfold user_loader at h
      cases hget : get_user s.users (PyVal.vstr uid) with
      | none =>
        rw [hget] at h
        simp at h
      | some u =>
        rw [hget] at h
        simp only [Option.some.injEq] at h
        unfold get_user at hget
        cases hk : int_coerce (PyVal.vstr uid) with
        | none =>
          rw [hk] at hget
          simp at hget
        | some k =>
          rw [hk] at hget
          simp only [Option.some_bind] at hget
          have hmem : u ∈ s.users := List.mem_of_find?_eq_some hget
          have hm : m.id = u.id := by rw [← h]
          rw [get_user]
          simp only [int_coerce, Option.some_bind, List.find?_isSome]
          exact ⟨u, hmem, by simp [hm]⟩
  have hauth : is_authenticated s = true := by
    rw [is_authenticated, h]
    rfl
  obtain ⟨u', hu'⟩ := Option.isSome_iff_exists.mp hsome
  exact ⟨hsome, by simp [user_data, login_required, hauth, user_data_body, h, hu']⟩

/-- Witness for C9 at an authenticated state over the fixed store. -/
theorem C9_witness :
    (get_user usersInit (PyVal.vint 1)).isSome = true :=
  (C9_data_lookup_total ⟨usersInit, some "1"⟩ ⟨1⟩ (by decide)).1

/-- C10: no handler mutates the user store: after any sequence of
requests the store is exactly the one the run started from, so a run from
startup keeps the fixed records, in content and order. -/
theorem C10_store_immutable (rs : List Request) (s : ServerState) :
    (runSeq rs s).users = s.users
    ∧ (runSeq rs initState).users = usersInit := by
  have hgen : ∀ (rs : List Request) (s : ServerState), (runSeq rs s).users = s.users := by
    intro rs
    induction rs with
    | nil => intro s; rfl
    | cons r rest ih =>
      intro s
      rw [runSeq, ih]
      exact step_users r s
  exact ⟨hgen rs s, hgen rs initState⟩
